import Mathlib

/-!
Verification of the core contracts of the fake-perfect-API repository:
the ETag / conditional-request engine, the pagination engine, the
uniqueness validators, the order-total reconciler and the echo endpoint,
as implemented by the in-memory FastAPI variant in `main.py` and the
SQL-backed router variant in `app/routers/`.

The Python code is shallowly embedded: dictionaries become association
lists, `Decimal` becomes `ℚ`, Python strings stay `String` (or
`List Char` where character-level reasoning is needed), and raised
`HTTPException`s become `Except` errors.  The SHA-256 digest used by the
ETag functions is abstracted as a `String → String` parameter: every
claim about tags is a statement about string equality of tags, which
holds (or fails) uniformly in the digest, so all theorems quantify over
it.
-/

/-! ## JSON values and canonical serialization

`main.py` computes ETags with `json.dumps(data, sort_keys=True,
default=str)`; the router variant uses
`json.dumps(..., sort_keys=True, separators=(",", ":"))`.  `Json` models
the payloads that reach those calls (objects, arrays, strings, ints,
bools, null; non-JSON values such as `UUID`, `datetime` and `Decimal`
have already been stringified by `default=str`/`jsonable_encoder`). -/

inductive Json where
  | null : Json
  | bool (b : Bool) : Json
  | num (n : Int) : Json
  | str (s : String) : Json
  | arr (items : List Json) : Json
  | obj (fields : List (String × Json)) : Json

/-- Lower-case hex digit, as produced by Python's `json` module. -/
def hexDigit (n : Nat) : Char :=
  if n < 10 then Char.ofNat (48 + n) else Char.ofNat (87 + n)

/-- Four-digit hex rendering used in `\uXXXX` escapes. -/
def hex4 (n : Nat) : String :=
  String.mk [hexDigit (n / 4096 % 16), hexDigit (n / 256 % 16),
             hexDigit (n / 16 % 16), hexDigit (n % 16)]

/-- The `\uXXXX` escape (with a surrogate pair above the BMP), as emitted by
`json.dumps` with `ensure_ascii=True`. -/
def uEscape (n : Nat) : String :=
  if n < 65536 then "\\u" ++ hex4 n
  else
    let m := n - 65536
    "\\u" ++ hex4 (55296 + m / 1024) ++ "\\u" ++ hex4 (56320 + m % 1024)

/-- Escape one character of a JSON string the way `json.dumps` does:
`"` and `\` get a backslash, the usual control-character shorthands are
used, and everything outside the printable ASCII range `0x20`–`0x7e`
becomes a `\uXXXX` escape (`ensure_ascii=True`, the default). -/
def escapeJsonChar (c : Char) : String :=
  if c.val = 34 then "\\\""
  else if c.val = 92 then "\\\\"
  else if c.val = 8 then "\\b"
  else if c.val = 9 then "\\t"
  else if c.val = 10 then "\\n"
  else if c.val = 12 then "\\f"
  else if c.val = 13 then "\\r"
  else if c.val < 32 ∨ 126 < c.val then uEscape c.val.toNat
  else String.singleton c

/-- Double-quoted, escaped JSON string literal. -/
def pyJsonQuote (s : String) : String :=
  "\"" ++ String.join (s.data.map escapeJsonChar) ++ "\""

/-- Insert a rendered `(key, value)` pair into a key-sorted list,
keeping it sorted by key (lexicographic string order, exactly the order
`sorted` uses on Python strings). -/
def insertPair (p : String × String) : List (String × String) → List (String × String)
  | [] => [p]
  | q :: qs => if p.1 ≤ q.1 then p :: q :: qs else q :: insertPair p qs

/-- Sort rendered `(key, value)` pairs by key; this is the `sort_keys=True`
ordering of `json.dumps`. -/
def sortPairs : List (String × String) → List (String × String)
  | [] => []
  | p :: ps => insertPair p (sortPairs ps)

mutual

/-- Canonical serialization of a `Json` value with the given item and
key separators: the textual form produced by
`json.dumps(data, sort_keys=True, separators=(isep, ksep))`.
Object values are rendered first and the rendered pairs are then sorted
by key; since the comparison reads only the key, this produces the same
text as sorting the fields before rendering. -/
def serializeWith (isep ksep : String) : Json → String
  | Json.null => "null"
  | Json.bool b => if b then "true" else "false"
  | Json.num n => toString n
  | Json.str s => pyJsonQuote s
  | Json.arr items => "[" ++ String.intercalate isep (serializeList isep ksep items) ++ "]"
  | Json.obj fields =>
      "\x7b" ++
        String.intercalate isep
          ((sortPairs (renderFields isep ksep fields)).map
            (fun p => pyJsonQuote p.1 ++ ksep ++ p.2)) ++
      "\x7d"

/-- Serialize every element of a JSON array. -/
def serializeList (isep ksep : String) : List Json → List String
  | [] => []
  | j :: js => serializeWith isep ksep j :: serializeList isep ksep js

/-- Render every field of a JSON object to a `(key, rendered value)` pair,
in field order. -/
def renderFields (isep ksep : String) : List (String × Json) → List (String × String)
  | [] => []
  | (k, v) :: fs => (k, serializeWith isep ksep v) :: renderFields isep ksep fs

end

/-- Embedding of `generate_etag` from `main.py`: serialize the payload
canonically (Python's default separators are `", "` and `": "`), hash it
with the digest, and wrap the hex digest as a weak tag `W/"…"`.  The
SHA-256 hex digest is the `digest` parameter. -/
def generate_etag (digest : String → String) (data : Json) : String :=
  "W/\"" ++ digest (serializeWith ", " ": " data) ++ "\""

/-- Embedding of `_compute_etag` from `app/routers/users.py` and
`app/routers/orders.py`: identical, except that the compact separators
`","`/`":"` are used. -/
def compute_etag (digest : String → String) (payload : Json) : String :=
  "W/\"" ++ digest (serializeWith "," ":" payload) ++ "\""

/-! ## Key-order independence of the canonical serialization -/

/-- The key ordering used by `sortPairs`. -/
def keyLE (p q : String × String) : Prop := p.1 ≤ q.1

theorem insertPair_perm (p : String × String) (l : List (String × String)) :
    (insertPair p l).Perm (p :: l) := by
  induction l with
  | nil => simp [insertPair]
  | cons q qs ih =>
    by_cases h : p.1 ≤ q.1
    · simp [insertPair, h]
    · simp only [insertPair, if_neg h]
      exact (ih.cons q).trans (List.Perm.swap p q qs)

theorem sortPairs_perm (l : List (String × String)) : (sortPairs l).Perm l := by
  induction l with
  | nil => simp [sortPairs]
  | cons p ps ih =>
    exact (insertPair_perm p (sortPairs ps)).trans (ih.cons p)

theorem insertPair_sorted (p : String × String) (l : List (String × String))
    (h : l.Pairwise keyLE) : (insertPair p l).Pairwise keyLE := by
  induction l with
  | nil => simp [insertPair, List.Pairwise]
  | cons q qs ih =>
    rcases h with _ | ⟨hq, hqs⟩
    by_cases hle : p.1 ≤ q.1
    · simp only [insertPair, if_pos hle]
      refine List.Pairwise.cons ?_ (List.Pairwise.cons hq hqs)
      intro x hx
      rcases List.mem_cons.mp hx with rfl | hx'
      · exact hle
      · exact le_trans hle (hq x hx')
    · simp only [insertPair, if_neg hle]
      refine List.Pairwise.cons ?_ (ih hqs)
      intro x hx
      have hx' : x = p ∨ x ∈ qs := by
        have := (insertPair_perm p qs).subset hx
        simpa using this
      rcases hx' with rfl | hx'
      · exact le_of_not_le hle
      · exact hq x hx'

theorem sortPairs_sorted (l : List (String × String)) :
    (sortPairs l).Pairwise keyLE := by
  induction l with
  | nil => simp [sortPairs, List.Pairwise]
  | cons p ps ih => exact insertPair_sorted p (sortPairs ps) ih

/-- Two key-sorted pair lists that are permutations of each other and whose
keys are distinct are equal. -/
theorem sorted_nodupkeys_eq :
    ∀ l₁ l₂ : List (String × String), l₁.Perm l₂ →
      l₁.Pairwise keyLE → l₂.Pairwise keyLE →
      (l₁.map Prod.fst).Nodup → l₁ = l₂ := by
  intro l₁
  induction l₁ with
  | nil =>
    intro l₂ hperm _ _ _
    exact (hperm.nil_eq).symm ▸ rfl
  | cons a t₁ ih =>
    intro l₂ hperm hs₁ hs₂ hnd
    cases l₂ with
    | nil => exact absurd hperm.symm.nil_eq (by simp)
    | cons b t₂ =>
      rcases hs₁ with _ | ⟨ha, ht₁⟩
      rcases hs₂ with _ | ⟨hb, ht₂⟩
      have hamem : a ∈ b :: t₂ := hperm.subset (List.mem_cons_self a t₁)
      have hbmem : b ∈ a :: t₁ := hperm.symm.subset (List.mem_cons_self b t₂)
      have hndc : a.1 ∉ t₁.map Prod.fst ∧ (t₁.map Prod.fst).Nodup := by
        rw [List.map_cons, List.nodup_cons] at hnd
        exact hnd
      have hab : a = b := by
        rcases List.mem_cons.mp hamem with h | h
        · exact h
        · rcases List.mem_cons.mp hbmem with h' | h'
          · exact h'.symm
          · -- a ∈ t₂ and b ∈ t₁ force equal keys, contradicting nodup keys
            have h1 : b.1 ≤ a.1 := hb a h
            have h2 : a.1 ≤ b.1 := ha b h'
            have hkey : a.1 = b.1 := le_antisymm h2 h1
            have : a.1 ∈ t₁.map Prod.fst := by
              exact hkey ▸ List.mem_map_of_mem Prod.fst h'
            exact absurd this hndc.1
      subst hab
      have htail : t₁.Perm t₂ := hperm.cons_inv
      have : t₁ = t₂ := ih t₂ htail ht₁ ht₂ hndc.2
      rw [this]

theorem sortPairs_eq_of_perm {l₁ l₂ : List (String × String)}
    (hperm : l₁.Perm l₂) (hnd : (l₁.map Prod.fst).Nodup) :
    sortPairs l₁ = sortPairs l₂ := by
  refine sorted_nodupkeys_eq _ _ ?_ (sortPairs_sorted l₁) (sortPairs_sorted l₂) ?_
  · exact (sortPairs_perm l₁).trans (hperm.trans (sortPairs_perm l₂).symm)
  · exact (((sortPairs_perm l₁).map Prod.fst).nodup_iff).mpr hnd

theorem renderFields_eq_map (isep ksep : String) (l : List (String × Json)) :
    renderFields isep ksep l = l.map (fun p => (p.1, serializeWith isep ksep p.2)) := by
  induction l with
  | nil => simp [renderFields]
  | cons p fs ih =>
    cases p with
    | mk k v => simp [renderFields, ih]

theorem serializeWith_obj_perm (isep ksep : String) {l₁ l₂ : List (String × Json)}
    (hperm : l₁.Perm l₂) (hnd : (l₁.map Prod.fst).Nodup) :
    serializeWith isep ksep (Json.obj l₁) = serializeWith isep ksep (Json.obj l₂) := by
  have hrperm : (renderFields isep ksep l₁).Perm (renderFields isep ksep l₂) := by
    rw [renderFields_eq_map, renderFields_eq_map]
    exact hperm.map _
  have hrkeys : ((renderFields isep ksep l₁).map Prod.fst).Nodup := by
    rw [renderFields_eq_map, List.map_map]
    simpa [Function.comp] using hnd
  simp only [serializeWith]
  rw [sortPairs_eq_of_perm hrperm hrkeys]

/-- C1: for every response body the ETag is deterministic — computing it
twice on the same logical body yields the same string — and permuting the
insertion order of an object body's fields before serialization does not
change the tag, because the canonical serialization sorts map keys
lexicographically.  This holds for both variants (`generate_etag` in
`main.py` and `_compute_etag` in the routers), uniformly in the digest. -/
theorem etag_deterministic_and_key_order_independent
    (digest : String → String) (body : Json) (l₁ l₂ : List (String × Json))
    (hperm : l₁.Perm l₂) (hkeys : (l₁.map Prod.fst).Nodup) :
    generate_etag digest body = generate_etag digest body ∧
    generate_etag digest (Json.obj l₁) = generate_etag digest (Json.obj l₂) ∧
    compute_etag digest (Json.obj l₁) = compute_etag digest (Json.obj l₂) := by
  refine ⟨rfl, ?_, ?_⟩
  · unfold generate_etag
    rw [serializeWith_obj_perm _ _ hperm hkeys]
  · unfold compute_etag
    rw [serializeWith_obj_perm _ _ hperm hkeys]

/-- Witness for C1 at a concrete two-field body with the fields swapped. -/
theorem etag_key_order_independent_witness :
    ([("b", Json.num 1), ("a", Json.str "x")] : List (String × Json)).Perm
      [("a", Json.str "x"), ("b", Json.num 1)] ∧
    (([("b", Json.num 1), ("a", Json.str "x")] : List (String × Json)).map Prod.fst).Nodup ∧
    generate_etag (fun s => s) (Json.obj [("b", Json.num 1), ("a", Json.str "x")]) =
      generate_etag (fun s => s) (Json.obj [("a", Json.str "x"), ("b", Json.num 1)]) := by
  refine ⟨List.Perm.swap _ _ _, by decide, ?_⟩
  exact (etag_deterministic_and_key_order_independent (fun s => s) Json.null
    _ _ (List.Perm.swap _ _ _) (by decide)).2.1

/-! ## Python string primitives

The embedded handlers use `str.lower`, `str.upper`, `str.split`,
`str.strip`.  They are defined here over the string's character list
(Python strings are sequences of code points), mirroring the Python
semantics case by case. -/

/-- Python `str.lower()` (character-wise). -/
def py_lower (s : String) : String := String.mk (s.data.map Char.toLower)

/-- Python `str.upper()` (character-wise). -/
def py_upper_str (s : String) : String := String.mk (s.data.map Char.toUpper)

/-- Python `str.split(sep)` for a one-character separator: split on every
occurrence; the empty string yields `[""]`. -/
def py_split (sep : Char) : List Char → List (List Char)
  | [] => [[]]
  | c :: cs =>
    match py_split sep cs with
    | [] => [[]]
    | x :: xs => if c = sep then [] :: x :: xs else (c :: x) :: xs

/-- Python `str.strip()`: drop whitespace from the left, then from the
right. -/
def py_strip (s : List Char) : List Char :=
  (((s.dropWhile Char.isWhitespace).reverse).dropWhile Char.isWhitespace).reverse

/-! ## Data model of the in-memory variant (`main.py`)

The three module-level dictionaries `users_store`, `products_store` and
`orders_store` become association lists keyed by the record's `id`
field (ids are unique, so first-match lookup is dict lookup).  `UUID`s
and timestamps are opaque — modelled as `Nat` — and `Decimal` is `ℚ`.
Raised `HTTPException`s become `Except Err`; state-changing handlers
return the new store alongside the result, so an error result carries
the store it left behind. -/

inductive Err where
  | notFound
  | conflict
  | badRequest
deriving DecidableEq

structure UserRec where
  id : Nat
  email : String
  name : String
  role : String
  created_at : Nat
  profile : Option Json

structure ProductRec where
  id : Nat
  sku : String
  name : String
  price : ℚ
  category : String
  tags : List String
deriving DecidableEq

inductive OrderStatus where
  | new
  | paid
  | shipped
  | cancelled
deriving DecidableEq

inductive PaymentMethod where
  | card
  | paypal
deriving DecidableEq

structure OrderItemRec where
  product_id : Nat
  qty : Nat
deriving DecidableEq

structure OrderRec where
  id : Nat
  user_id : Nat
  status : OrderStatus
  created_at : Nat
  payment_method : PaymentMethod
  notes : Option String
  items : List OrderItemRec
deriving DecidableEq

/-- Dict lookup `users_store.get(user_id)`. -/
def users_get (store : List UserRec) (uid : Nat) : Option UserRec :=
  store.find? (fun u => u.id == uid)

/-- Dict lookup `products_store.get(product_id)`. -/
def products_get (store : List ProductRec) (pid : Nat) : Option ProductRec :=
  store.find? (fun p => p.id == pid)

/-- Dict lookup `orders_store.get(order_id)`. -/
def orders_get (store : List OrderRec) (oid : Nat) : Option OrderRec :=
  store.find? (fun o => o.id == oid)

/-- Dict assignment `users_store[u.id] = u`: replace the entry with the
same id in place, else append (Python dicts keep insertion order). -/
def users_put : List UserRec → UserRec → List UserRec
  | [], u => [u]
  | v :: vs, u => if v.id == u.id then u :: vs else v :: users_put vs u

/-- Dict assignment for the products store. -/
def products_put : List ProductRec → ProductRec → List ProductRec
  | [], p => [p]
  | q :: qs, p => if q.id == p.id then p :: qs else q :: products_put qs p

/-- Dict assignment for the orders store. -/
def orders_put : List OrderRec → OrderRec → List OrderRec
  | [], o => [o]
  | q :: qs, o => if q.id == o.id then o :: qs else q :: orders_put qs o

/-- Embedding of `ensure_user_exists`: fetch or 404. -/
def ensure_user_exists (store : List UserRec) (uid : Nat) : Except Err UserRec :=
  match users_get store uid with
  | none => .error .notFound
  | some u => .ok u

/-- Embedding of `ensure_product_exists`: fetch or 404. -/
def ensure_product_exists (store : List ProductRec) (pid : Nat) : Except Err ProductRec :=
  match products_get store pid with
  | none => .error .notFound
  | some p => .ok p

/-- Embedding of `ensure_order_exists`: fetch or 404. -/
def ensure_order_exists (store : List OrderRec) (oid : Nat) : Except Err OrderRec :=
  match orders_get store oid with
  | none => .error .notFound
  | some o => .ok o

/-- Embedding of `ensure_email_unique`: 409 iff some stored user has the
same lower-cased email and a different id (`user_id=None` on create
excludes nothing). -/
def ensure_email_unique (store : List UserRec) (email : String)
    (user_id : Option Nat) : Except Err Unit :=
  if store.any (fun u => py_lower u.email == py_lower email && some u.id != user_id)
  then .error .conflict else .ok ()

/-- Embedding of `ensure_sku_unique`: 409 iff some stored product has the
same upper-cased SKU and a different id. -/
def ensure_sku_unique (store : List ProductRec) (sku : String)
    (product_id : Option Nat) : Except Err Unit :=
  if store.any (fun p => py_upper_str p.sku == py_upper_str sku && some p.id != product_id)
  then .error .conflict else .ok ()

/-! ## Pagination engine -/

/-- A URL whose query parameters have `page` and `page_size` forced to
the given values (the only part of `request.url.include_query_params`
the pagination contract depends on). -/
structure PageRef where
  page : Nat
  page_size : Nat
deriving DecidableEq

structure PaginationLinksM where
  self : PageRef
  next : Option PageRef
  prev : Option PageRef
deriving DecidableEq

/-- Embedding of `make_pagination_links`: `next` points at `page+1` iff
`page * page_size < total`, `prev` at `page-1` iff `page > 1`. -/
def make_pagination_links (page page_size total : Nat) : PaginationLinksM :=
  { self := ⟨page, page_size⟩
    next := if page * page_size < total then some ⟨page + 1, page_size⟩ else none
    prev := if 1 < page then some ⟨page - 1, page_size⟩ else none }

structure UserListResponseM where
  items : List UserRec
  page : Nat
  page_size : Nat
  total : Nat
  links : PaginationLinksM

/-- Embedding of the `list_users` endpoint of `main.py`: sort (the sort
key/direction becomes the comparator `le`), then slice
`users[(page-1)*page_size : (page-1)*page_size + page_size]`, then build
links.  There is no error path: any `page ≥ 1` is served. -/
def list_users (store : List UserRec) (le : UserRec → UserRec → Bool)
    (page page_size : Nat) : UserListResponseM :=
  let users := store.mergeSort le
  let total := users.length
  let start := (page - 1) * page_size
  let paginated := (users.drop start).take page_size
  { items := paginated, page := page, page_size := page_size, total := total,
    links := make_pagination_links page page_size total }

/-! ## Money and the order-total reconciler -/

/-- Embedding of `quantize_price`: `Decimal.quantize(Decimal("0.01"),
rounding=ROUND_HALF_UP)` — fix to 2 fraction digits, rounding the
half-way case away from zero. -/
def quantize_price (v : ℚ) : ℚ :=
  if 0 ≤ v then ((⌊v * 100 + 1/2⌋ : ℤ) : ℚ) / 100
  else -(((⌊-v * 100 + 1/2⌋ : ℤ) : ℚ) / 100)

/-- A value representable with 2 fraction digits (an integer number of
cents) — the form every stored price has, since the API validates
`decimal_places=2` on input and the seeds are 2-place decimals. -/
def IsCents (v : ℚ) : Prop := ∃ n : ℤ, v = (n : ℚ) / 100

theorem isCents_add {a b : ℚ} (ha : IsCents a) (hb : IsCents b) : IsCents (a + b) := by
  obtain ⟨m, rfl⟩ := ha
  obtain ⟨n, rfl⟩ := hb
  exact ⟨m + n, by push_cast; ring⟩

theorem isCents_mul_nat {a : ℚ} (ha : IsCents a) (q : ℕ) : IsCents (a * q) := by
  obtain ⟨m, rfl⟩ := ha
  exact ⟨m * q, by push_cast; ring⟩

theorem isCents_zero : IsCents 0 := ⟨0, by norm_num⟩

theorem floor_intCast_add_half (n : ℤ) : ⌊(n : ℚ) + 1/2⌋ = n := by
  have h0 : ⌊(1/2 : ℚ)⌋ = 0 := by
    rw [Int.floor_eq_zero_iff]
    constructor <;> norm_num
  rw [Int.floor_int_add, h0, add_zero]

/-- Quantization is the identity on 2-place decimals. -/
theorem quantize_price_eq_self {v : ℚ} (hv : IsCents v) : quantize_price v = v := by
  obtain ⟨n, rfl⟩ := hv
  have h100 : ((n : ℚ) / 100) * 100 = (n : ℚ) := by
    field_simp
  unfold quantize_price
  split_ifs with h0
  · rw [h100, floor_intCast_add_half]
  · have : -((n : ℚ) / 100) * 100 = ((-n : ℤ) : ℚ) := by
      push_cast
      field_simp
    rw [this, floor_intCast_add_half]
    push_cast
    ring

/-- The quantized value is always a 2-place decimal. -/
theorem isCents_quantize (v : ℚ) : IsCents (quantize_price v) := by
  unfold quantize_price
  split_ifs with h0
  · exact ⟨⌊v * 100 + 1/2⌋, rfl⟩
  · exact ⟨-⌊-v * 100 + 1/2⌋, by push_cast; ring⟩

structure OrderItemOutM where
  product_id : Nat
  qty : Nat
  line_total : ℚ
deriving DecidableEq

/-- The `OrderOut` payload as built by `order_to_response` (the `_links` block is
omitted: it only repeats the ids through URL templates). -/
structure OrderOutM where
  id : Nat
  user_id : Nat
  status : OrderStatus
  created_at : Nat
  payment_method : PaymentMethod
  notes : Option String
  total : ℚ
  items : List OrderItemOutM
deriving DecidableEq

/-- The item loop of `order_to_response`: resolve each product (404 on
failure), quantize its current price, take `line_total =
quantize(price * qty)`, and accumulate the running total. -/
def order_items_out (products : List ProductRec) :
    List OrderItemRec → Except Err (List OrderItemOutM × ℚ)
  | [] => .ok ([], 0)
  | item :: rest =>
    match ensure_product_exists products item.product_id with
    | .error e => .error e
    | .ok product =>
      let price := quantize_price product.price
      let line_total := quantize_price (price * item.qty)
      match order_items_out products rest with
      | .error e => .error e
      | .ok (outs, total) =>
        .ok ({ product_id := product.id, qty := item.qty, line_total := line_total } :: outs,
             line_total + total)

/-- Embedding of `order_to_response`: resolve the owning user, reprice
every line item against the *current* products store, and quantize the
grand total.  Nothing is read from any price stored on the order —
`OrderRec` holds only `(product_id, qty)` pairs. -/
def order_to_response (users : List UserRec) (products : List ProductRec)
    (order : OrderRec) : Except Err OrderOutM :=
  match ensure_user_exists users order.user_id with
  | .error e => .error e
  | .ok _user =>
    match order_items_out products order.items with
    | .error e => .error e
    | .ok (items_out, total) =>
      .ok { id := order.id, user_id := order.user_id, status := order.status,
            created_at := order.created_at, payment_method := order.payment_method,
            notes := order.notes, total := quantize_price total, items := items_out }

/-! ## Endpoints of `main.py` -/

/-- The `UserCreate` payload. -/
structure UserCreateM where
  email : String
  name : String
  role : String
  profile : Option Json

/-- The `UserUpdate` payload: a field is `some _` exactly when it was set in
the request (`model_dump(exclude_unset=True)`). -/
structure UserPatchM where
  email : Option String
  name : Option String
  role : Option String
  profile : Option (Option Json)

/-- Embedding of the `create_user` endpoint: check email uniqueness
first, and only on success build the new record and write it.  `uuid4()`
and `datetime.utcnow()` are nondeterministic inputs, passed as `newId`
and `now`.  The pair returned is (store afterwards, result). -/
def create_user (store : List UserRec) (now newId : Nat)
    (user : UserCreateM) : List UserRec × Except Err UserRec :=
  match ensure_email_unique store user.email none with
  | .error e => (store, .error e)
  | .ok _ =>
    let new_user : UserRec :=
      { id := newId, email := user.email, name := user.name, role := user.role,
        created_at := now, profile := user.profile }
    (users_put store new_user, .ok new_user)

/-- Embedding of the `update_user` endpoint: look up the user, check
email uniqueness (excluding the user's own id) only when an email was
supplied, then merge the supplied fields and write back. -/
def update_user (store : List UserRec) (uid : Nat)
    (patch : UserPatchM) : List UserRec × Except Err UserRec :=
  match ensure_user_exists store uid with
  | .error e => (store, .error e)
  | .ok stored =>
    match (match patch.email with
           | some e => ensure_email_unique store e (some stored.id)
           | none => .ok ()) with
    | .error e => (store, .error e)
    | .ok _ =>
      let updated : UserRec :=
        { stored with
          email := patch.email.getD stored.email
          name := patch.name.getD stored.name
          role := patch.role.getD stored.role
          profile := patch.profile.getD stored.profile }
      (users_put store updated, .ok updated)

/-- The `ProductCreate`/`ProductUpdate` payload. -/
structure ProductInM where
  sku : String
  name : String
  price : ℚ
  category : String
  tags : List String

/-- Embedding of the `replace_product` endpoint (`PUT /products/{id}`):
404 if absent, then SKU uniqueness excluding the product itself, then a
full overwrite of the record. -/
def replace_product (store : List ProductRec) (pid : Nat)
    (product : ProductInM) : List ProductRec × Except Err ProductRec :=
  match ensure_product_exists store pid with
  | .error e => (store, .error e)
  | .ok _ =>
    match ensure_sku_unique store product.sku (some pid) with
    | .error e => (store, .error e)
    | .ok _ =>
      let updated : ProductRec :=
        { id := pid, sku := product.sku, name := product.name,
          price := product.price, category := product.category,
          tags := product.tags }
      (products_put store updated, .ok updated)

/-- The `OrderCreate` payload. -/
structure OrderCreateM where
  user_id : Nat
  items : List OrderItemRec
  payment_method : PaymentMethod
  notes : Option String

/-- The item-normalization loop of `create_order`: resolve every product
reference (404 on the first failure) and rebuild the `(product_id, qty)`
pairs.  Runs before anything is written. -/
def normalize_items (products : List ProductRec) :
    List OrderItemRec → Except Err (List OrderItemRec)
  | [] => .ok []
  | item :: rest =>
    match ensure_product_exists products item.product_id with
    | .error e => .error e
    | .ok product =>
      match normalize_items products rest with
      | .error e => .error e
      | .ok norm => .ok ({ product_id := product.id, qty := item.qty } :: norm)

/-- Embedding of the `create_order` endpoint: resolve the user, resolve
every item, and only then build the order (status `new`) and write it.
On any resolution failure the orders store is returned untouched. -/
def create_order (users : List UserRec) (products : List ProductRec)
    (orders : List OrderRec) (now newId : Nat)
    (order : OrderCreateM) : List OrderRec × Except Err OrderRec :=
  match ensure_user_exists users order.user_id with
  | .error e => (orders, .error e)
  | .ok _ =>
    match normalize_items products order.items with
    | .error e => (orders, .error e)
    | .ok normalized =>
      let new_order : OrderRec :=
        { id := newId, user_id := order.user_id, status := .new,
          created_at := now, payment_method := order.payment_method,
          notes := order.notes, items := normalized }
      (orders_put orders new_order, .ok new_order)

/-- Embedding of the `update_order` endpoint: 404 if the order is
missing, otherwise overwrite `status` with the requested value — any of
the four values, unconditionally (no transition graph) — write the
order back, and render it through `order_to_response`. -/
def update_order (users : List UserRec) (products : List ProductRec)
    (orders : List OrderRec) (oid : Nat)
    (new_status : OrderStatus) : List OrderRec × Except Err OrderOutM :=
  match ensure_order_exists orders oid with
  | .error e => (orders, .error e)
  | .ok order =>
    let updated := { order with status := new_status }
    (orders_put orders updated, order_to_response users products updated)

/-! ## Conditional reads -/

/-- A single-resource response: status code, optional JSON body, `ETag`
header. -/
structure ResourceResponse where
  statusCode : Nat
  body : Option Json
  etag : String

/-- The `UserOut` payload of `main.py` as it reaches `generate_etag`
(after `model_dump`; `UUID`/`datetime` values appear stringified via
`default=str`). -/
def user_out_json (u : UserRec) : Json :=
  Json.obj [("email", Json.str u.email), ("name", Json.str u.name),
            ("role", Json.str u.role),
            ("profile", match u.profile with | none => Json.null | some p => p),
            ("id", Json.str (toString u.id)),
            ("created_at", Json.str (toString u.created_at))]

/-- Embedding of `get_user` from `main.py`: 404 if absent; otherwise the
tag is compared with the *entire* `If-None-Match` header by string
equality (`request.headers.get("if-none-match") == etag`) — the header
is not split into candidate tags. -/
def get_user (digest : String → String) (store : List UserRec) (uid : Nat)
    (if_none_match : Option String) : Except Err ResourceResponse :=
  match ensure_user_exists store uid with
  | .error e => .error e
  | .ok user =>
    let payload := user_out_json user
    let etag := generate_etag digest payload
    if if_none_match == some etag then
      .ok { statusCode := 304, body := none, etag := etag }
    else
      .ok { statusCode := 200, body := some payload, etag := etag }

/-! ## The SQL-backed router variant (`app/routers/users.py`) -/

/-- A `User` row of the router variant. -/
structure SqlUserRec where
  id : Nat
  email : String
  full_name : String
  is_active : Bool
  joined_at : Nat
  updated_at : Nat

/-- The `UserDetail` payload of the router's `get_user` as it reaches
`_compute_etag` (audit-log entries already encoded). -/
def sql_user_detail_json (u : SqlUserRec) (audit : List Json) : Json :=
  Json.obj [("id", Json.str (toString u.id)), ("email", Json.str u.email),
            ("full_name", Json.str u.full_name), ("is_active", Json.bool u.is_active),
            ("joined_at", Json.str (toString u.joined_at)),
            ("updated_at", Json.str (toString u.updated_at)),
            ("audit_logs", Json.arr audit)]

/-- The router's conditional check: a non-empty `If-None-Match` header is
split on commas, each candidate is stripped of surrounding whitespace,
and the fresh tag must equal one of the candidates exactly. -/
def router_not_modified (if_none_match : Option String) (etag : String) : Bool :=
  match if_none_match with
  | none => false
  | some h =>
    if h.data.isEmpty then false
    else ((py_split ',' h.data).map py_strip).contains etag.data

/-- Embedding of `get_user` from `app/routers/users.py`: 404 if absent;
otherwise 304 with no body iff `router_not_modified` accepts the header,
else 200 with the full body.  `audit_logs` supplies each user's encoded
audit-log rows. -/
def router_get_user (digest : String → String) (store : List SqlUserRec)
    (audit_logs : Nat → List Json) (uid : Nat)
    (if_none_match : Option String) : Except Err ResourceResponse :=
  match store.find? (fun u => u.id == uid) with
  | none => .error .notFound
  | some user =>
    let content := sql_user_detail_json user (audit_logs user.id)
    let etag := compute_etag digest content
    if router_not_modified if_none_match etag then
      .ok { statusCode := 304, body := none, etag := etag }
    else
      .ok { statusCode := 200, body := some content, etag := etag }

/-! ## The echo endpoint (`main.py`)

Python strings are modelled as `List Char` here because the claim is
about the characters produced (`html.escape`, `str.strip`,
`str.upper`). -/

/-- One character under `html.escape(s)` (the default `quote=True`):
`&`, `<`, `>`, `"` and the apostrophe (codepoint 39) become entities.
The sequential `str.replace` chain of `html.escape` replaces `&` first,
so it acts independently on each original character — a character map. -/
def html_escape_char (c : Char) : List Char :=
  if c.val = 38 then "&amp;".data
  else if c.val = 60 then "&lt;".data
  else if c.val = 62 then "&gt;".data
  else if c.val = 34 then "&quot;".data
  else if c.val = 39 then "&#x27;".data
  else [c]

/-- Embedding of `html.escape`. -/
def html_escape (s : List Char) : List Char :=
  (s.map html_escape_char).flatten

/-- Python `s * n` for strings. -/
def py_repeat (s : List Char) : Nat → List Char
  | 0 => []
  | n + 1 => s ++ py_repeat s n

/-- Python `str.upper()` (character-wise). -/
def py_upper (s : List Char) : List Char := s.map Char.toUpper

structure EchoResponseM where
  echoed : List Char
  original_message_length : Nat
deriving DecidableEq

/-- Embedding of the `echo` endpoint: escape the message, append one
space, repeat, strip the result, optionally uppercase; report the
length of the *unescaped* original message. -/
def echo (message : List Char) (repeat_count : Nat) (uppercase : Bool) : EchoResponseM :=
  let sanitized := html_escape message
  let repeated := py_repeat (sanitized ++ [' ']) repeat_count
  let stripped := py_strip repeated
  let msg := if uppercase then py_upper stripped else stripped
  { echoed := msg, original_message_length := message.length }

/-- Separator-join (Python `sep.join(parts)`). -/
def joinSep (sep : List Char) : List (List Char) → List Char
  | [] => []
  | [x] => x
  | x :: xs => x ++ sep ++ joinSep sep xs

/-- Modelled from the spec claim (C10), for comparison with `echo`: the
HTML-escaped form of the message repeated `r` times joined by single
spaces, uppercased when the flag is set. -/
def claim_echoed (message : List Char) (r : Nat) (uppercase : Bool) : List Char :=
  let joined := joinSep [' '] (List.replicate r (html_escape message))
  if uppercase then py_upper joined else joined

/-! ## C3: pagination bounds -/

/-- C3: for every collection of `N` items, page size `s` with
`1 ≤ s ≤ 100` and page `p ≥ 1`, `list_users` returns the slice
`[(p-1)·s, p·s)` clipped to `[0, N)` — its length is
`min s (N - (p-1)·s)` (natural subtraction is the claim's
`max(0, N-(p-1)s)`) — the `next` link is present iff `p·s < N`, the
`prev` link is present iff `p > 1`, and a page beyond the last yields an
empty slice rather than an error (`list_users` is total: it has no
error outcome at all). -/
theorem pagination_bounds (store : List UserRec) (le : UserRec → UserRec → Bool)
    (page page_size : Nat) (hs1 : 1 ≤ page_size) (hs2 : page_size ≤ 100)
    (hp : 1 ≤ page) :
    (list_users store le page page_size).items.length =
      min page_size (store.length - (page - 1) * page_size) ∧
    ((list_users store le page page_size).links.next.isSome ↔
      page * page_size < store.length) ∧
    ((list_users store le page page_size).links.prev.isSome ↔ 1 < page) ∧
    (store.length ≤ (page - 1) * page_size →
      (list_users store le page page_size).items = []) := by
  refine ⟨?_, ?_, ?_, ?_⟩
  · simp [list_users, List.length_take, List.length_drop, List.length_mergeSort]
  · simp only [list_users, make_pagination_links]
    split_ifs with h
    · simpa [List.length_mergeSort] using h
    · simpa [List.length_mergeSort] using h
  · simp only [list_users, make_pagination_links]
    split_ifs with h
    · simpa using h
    · simpa using h
  · intro hbeyond
    have hdrop : (store.mergeSort le).drop ((page - 1) * page_size) = [] :=
      List.drop_eq_nil_of_le (by simpa [List.length_mergeSort] using hbeyond)
    simp [list_users, hdrop]

/-- Witness for C3: two users, page 3 of size 1 — past the last page. -/
theorem pagination_bounds_witness :
    1 ≤ 1 ∧ (1 : Nat) ≤ 100 ∧ 1 ≤ 3 ∧
    ((list_users
        [{ id := 1, email := "a@x.com", name := "A", role := "member",
           created_at := 0, profile := none },
         { id := 2, email := "b@x.com", name := "B", role := "member",
           created_at := 1, profile := none }]
        (fun u v => u.created_at ≤ v.created_at) 3 1).items.length =
      min 1 (2 - (3 - 1) * 1) ∧
    ((list_users
        [{ id := 1, email := "a@x.com", name := "A", role := "member",
           created_at := 0, profile := none },
         { id := 2, email := "b@x.com", name := "B", role := "member",
           created_at := 1, profile := none }]
        (fun u v => u.created_at ≤ v.created_at) 3 1).links.next.isSome ↔
      3 * 1 < 2) ∧
    ((list_users
        [{ id := 1, email := "a@x.com", name := "A", role := "member",
           created_at := 0, profile := none },
         { id := 2, email := "b@x.com", name := "B", role := "member",
           created_at := 1, profile := none }]
        (fun u v => u.created_at ≤ v.created_at) 3 1).links.prev.isSome ↔ 1 < 3) ∧
    (2 ≤ (3 - 1) * 1 →
      (list_users
        [{ id := 1, email := "a@x.com", name := "A", role := "member",
           created_at := 0, profile := none },
         { id := 2, email := "b@x.com", name := "B", role := "member",
           created_at := 1, profile := none }]
        (fun u v => u.created_at ≤ v.created_at) 3 1).items = [])) := by
  refine ⟨by decide, by decide, by decide, ?_⟩
  have h := pagination_bounds
    [{ id := 1, email := "a@x.com", name := "A", role := "member",
       created_at := 0, profile := none },
     { id := 2, email := "b@x.com", name := "B", role := "member",
       created_at := 1, profile := none }]
    (fun u v => u.created_at ≤ v.created_at) 3 1
    (by decide) (by decide) (by decide)
  simpa using h

/-! ## C4: uniqueness enforcement on create -/

/-- C4: if the store holds a user whose email differs from the request's
only in letter case, `create_user` fails with Conflict.  The uniqueness
check runs before any write — on conflict the returned store is exactly
the input store, so no new user is inserted and the first user is still
present, unchanged. -/
theorem create_user_conflict (store : List UserRec) (u : UserRec) (hu : u ∈ store)
    (req : UserCreateM) (hcase : py_lower req.email = py_lower u.email)
    (now newId : Nat) :
    create_user store now newId req = (store, .error .conflict) ∧
    u ∈ (create_user store now newId req).1 := by
  have hany : (store.any
      (fun v => py_lower v.email == py_lower req.email && some v.id != none)) = true := by
    rw [List.any_eq_true]
    refine ⟨u, hu, ?_⟩
    simp [hcase]
  have hconf : ensure_email_unique store req.email none = .error .conflict := by
    simp [ensure_email_unique, hany]
  have h1 : create_user store now newId req = (store, .error .conflict) := by
    simp [create_user, hconf]
  exact ⟨h1, by rw [h1]; exact hu⟩

/-- Witness for C4: the stored email and the requested one differ only
in case, and the create conflicts while leaving the store unchanged. -/
theorem create_user_conflict_witness :
    ({ id := 7, email := "Sam@Example.com", name := "Sam", role := "member",
       created_at := 0, profile := none } : UserRec) ∈
      [({ id := 7, email := "Sam@Example.com", name := "Sam", role := "member",
          created_at := 0, profile := none } : UserRec)] ∧
    py_lower "sam@example.com" = py_lower "Sam@Example.com" ∧
    create_user
      [{ id := 7, email := "Sam@Example.com", name := "Sam", role := "member",
         created_at := 0, profile := none }] 5 8
      { email := "sam@example.com", name := "Other", role := "admin", profile := none } =
      ([{ id := 7, email := "Sam@Example.com", name := "Sam", role := "member",
          created_at := 0, profile := none }], .error .conflict) := by
  refine ⟨List.mem_singleton.mpr rfl, by decide, ?_⟩
  exact (create_user_conflict _ _ (List.mem_singleton.mpr rfl) _ (by decide) 5 8).1

/-! ## Store lemmas shared by the write-path claims -/

/-- With pairwise-distinct ids, dict lookup of a stored user's id finds
exactly that user. -/
theorem users_get_self {store : List UserRec} (hids : store.Pairwise (fun a b => a.id ≠ b.id))
    {u : UserRec} (hu : u ∈ store) : users_get store u.id = some u := by
  induction store with
  | nil => cases hu
  | cons v vs ih =>
    rcases hids with _ | ⟨hv, hvs⟩
    rcases List.mem_cons.mp hu with rfl | hu'
    · simp [users_get, List.find?]
    · have hne : v.id ≠ u.id := hv u hu'
      have : (v.id == u.id) = false := by
        simpa using hne
      simpa [users_get, List.find?, this] using ih hvs hu'

/-- With pairwise-distinct ids, dict lookup of a stored product's id finds
exactly that product. -/
theorem products_get_self {store : List ProductRec}
    (hids : store.Pairwise (fun a b => a.id ≠ b.id))
    {p : ProductRec} (hp : p ∈ store) : products_get store p.id = some p := by
  induction store with
  | nil => cases hp
  | cons q qs ih =>
    rcases hids with _ | ⟨hq, hqs⟩
    rcases List.mem_cons.mp hp with rfl | hp'
    · simp [products_get, List.find?]
    · have hne : q.id ≠ p.id := hq p hp'
      have : (q.id == p.id) = false := by
        simpa using hne
      simpa [products_get, List.find?, this] using ih hqs hp'

/-- Writing a record and then looking up its id reads back exactly that
record, whatever the store held before. -/
theorem products_get_put (store : List ProductRec) (p : ProductRec) :
    products_get (products_put store p) p.id = some p := by
  induction store with
  | nil => simp [products_put, products_get, List.find?]
  | cons q qs ih =>
    by_cases h : q.id = p.id
    · simp [products_put, h, products_get, List.find?]
    · have hb : (q.id == p.id) = false := by simpa using h
      simp only [products_put, hb, if_false]
      simpa [products_get, List.find?, hb] using ih

/-- Writing an order and then looking up its id reads back exactly that
order. -/
theorem orders_get_put (store : List OrderRec) (o : OrderRec) :
    orders_get (orders_put store o) o.id = some o := by
  induction store with
  | nil => simp [orders_put, orders_get, List.find?]
  | cons q qs ih =>
    by_cases h : q.id = o.id
    · simp [orders_put, h, orders_get, List.find?]
    · have hb : (q.id == o.id) = false := by simpa using h
      simp only [orders_put, hb, if_false]
      simpa [orders_get, List.find?, hb] using ih

/-! ## C9: updates that keep the entity's own email/SKU do not conflict -/

/-- C9: under the uniqueness invariants (case-insensitively distinct
emails/SKUs and distinct ids), an update of a user that supplies an email
equal to its own current email up to letter case passes
`ensure_email_unique` (the check excludes the entity whose id is the
supplied exclude identifier) and the update succeeds; likewise a product
replacement that supplies the product's own SKU up to case passes
`ensure_sku_unique` and succeeds. -/
theorem self_case_update_no_conflict
    (ustore : List UserRec) (u : UserRec) (hu : u ∈ ustore)
    (hemails : ustore.Pairwise (fun a b => py_lower a.email ≠ py_lower b.email))
    (huids : ustore.Pairwise (fun a b => a.id ≠ b.id))
    (e : String) (he : py_lower e = py_lower u.email)
    (patch : UserPatchM) (hpe : patch.email = some e)
    (pstore : List ProductRec) (p : ProductRec) (hp : p ∈ pstore)
    (hskus : pstore.Pairwise (fun a b => py_upper_str a.sku ≠ py_upper_str b.sku))
    (hpids : pstore.Pairwise (fun a b => a.id ≠ b.id))
    (prod : ProductInM) (hps : py_upper_str prod.sku = py_upper_str p.sku) :
    ensure_email_unique ustore e (some u.id) = .ok () ∧
    (∃ r, (update_user ustore u.id patch).2 = .ok r) ∧
    ensure_sku_unique pstore prod.sku (some p.id) = .ok () ∧
    (∃ r, (replace_product pstore p.id prod).2 = .ok r) := by
  have hanyE : (ustore.any
      (fun v => py_lower v.email == py_lower e && some v.id != some u.id)) = false := by
    rw [List.any_eq_false]
    intro v hv
    by_cases hvm : py_lower v.email = py_lower e
    · have hveq : v = u := by
        by_contra hne
        exact (hemails.forall (fun _ _ h => h.symm) hv hu hne) (hvm.trans he)
      subst hveq
      simp
    · simp [hvm]
  have hEmailOk : ensure_email_unique ustore e (some u.id) = .ok () := by
    simp [ensure_email_unique, hanyE]
  have hanyS : (pstore.any
      (fun q => py_upper_str q.sku == py_upper_str prod.sku && some q.id != some p.id)) = false := by
    rw [List.any_eq_false]
    intro q hq
    by_cases hqm : py_upper_str q.sku = py_upper_str prod.sku
    · have hqeq : q = p := by
        by_contra hne
        exact (hskus.forall (fun _ _ h => h.symm) hq hp hne) (hqm.trans hps)
      subst hqeq
      simp
    · simp [hqm]
  have hSkuOk : ensure_sku_unique pstore prod.sku (some p.id) = .ok () := by
    simp [ensure_sku_unique, hanyS]
  refine ⟨hEmailOk, ?_, hSkuOk, ?_⟩
  · have hget : users_get ustore u.id = some u := users_get_self huids hu
    refine ⟨{ u with
        email := e
        name := patch.name.getD u.name
        role := patch.role.getD u.role
        profile := patch.profile.getD u.profile }, ?_⟩
    simp [update_user, ensure_user_exists, hget, hpe, hEmailOk]
  · have hget : products_get pstore p.id = some p := products_get_self hpids hp
    refine ⟨{ id := p.id
              sku := prod.sku
              name := prod.name
              price := prod.price
              category := prod.category
              tags := prod.tags }, ?_⟩
    simp [replace_product, ensure_product_exists, hget, hSkuOk]

/-- Witness for C9: a one-user store and a one-product store, updated
with their own email/SKU in different letter case. -/
theorem self_case_update_no_conflict_witness :
    py_lower "a@X.com" = py_lower "A@x.com" ∧
    py_upper_str "sku-abc123" = py_upper_str "SKU-ABC123" ∧
    ensure_email_unique
      [{ id := 1, email := "A@x.com", name := "A", role := "member",
         created_at := 0, profile := none }] "a@X.com" (some 1) = .ok () ∧
    (∃ r, (update_user
      [{ id := 1, email := "A@x.com", name := "A", role := "member",
         created_at := 0, profile := none }] 1
      { email := some "a@X.com", name := none, role := none, profile := none }).2 =
        .ok r) ∧
    ensure_sku_unique
      [{ id := 1, sku := "SKU-ABC123", name := "Kbd", price := 10,
         category := "device", tags := [] }] "sku-abc123" (some 1) = .ok () ∧
    (∃ r, (replace_product
      [{ id := 1, sku := "SKU-ABC123", name := "Kbd", price := 10,
         category := "device", tags := [] }] 1
      { sku := "sku-abc123", name := "Kbd", price := 10, category := "device",
        tags := [] }).2 = .ok r) := by
  have h := self_case_update_no_conflict
    [{ id := 1, email := "A@x.com", name := "A", role := "member",
       created_at := 0, profile := none }]
    { id := 1, email := "A@x.com", name := "A", role := "member",
      created_at := 0, profile := none }
    (List.mem_singleton.mpr rfl) (List.pairwise_singleton _ _) (List.pairwise_singleton _ _)
    "a@X.com" (by decide)
    { email := some "a@X.com", name := none, role := none, profile := none } rfl
    [{ id := 1, sku := "SKU-ABC123", name := "Kbd", price := 10,
       category := "device", tags := [] }]
    { id := 1, sku := "SKU-ABC123", name := "Kbd", price := 10,
      category := "device", tags := [] }
    (List.mem_singleton.mpr rfl) (List.pairwise_singleton _ _) (List.pairwise_singleton _ _)
    { sku := "sku-abc123", name := "Kbd", price := 10, category := "device",
      tags := [] } (by decide)
  exact ⟨by decide, by decide, h.1, h.2.1, h.2.2.1, h.2.2.2⟩

/-! ## C7: order creation with an unresolvable product -/

/-- If any item's product reference does not resolve, the normalization
loop fails with NotFound. -/
theorem normalize_items_error (products : List ProductRec)
    (items : List OrderItemRec) (it : OrderItemRec) (hit : it ∈ items)
    (hmiss : products_get products it.product_id = none) :
    normalize_items products items = .error .notFound := by
  induction items with
  | nil => cases hit
  | cons hd rest ih =>
    rcases List.mem_cons.mp hit with rfl | hit'
    · simp [normalize_items, ensure_product_exists, hmiss]
    · cases hhd : products_get products hd.product_id with
      | none => simp [normalize_items, ensure_product_exists, hhd]
      | some p =>
        simp [normalize_items, ensure_product_exists, hhd, ih hit']

/-- In the `main.py` variant, an order-creation request with a product
reference that does not resolve fails with NotFound, and the orders
store is returned exactly as it was — no order is written. -/
theorem create_order_unresolved_product
    (users : List UserRec) (products : List ProductRec) (orders : List OrderRec)
    (now newId : Nat) (req : OrderCreateM) (it : OrderItemRec)
    (hit : it ∈ req.items)
    (hmiss : products_get products it.product_id = none) :
    create_order users products orders now newId req = (orders, .error .notFound) := by
  cases hu : users_get users req.user_id with
  | none => simp [create_order, ensure_user_exists, hu]
  | some u =>
    simp [create_order, ensure_user_exists, hu,
      normalize_items_error products req.items it hit hmiss]

/-! ## C8: no status transition graph -/

/-- Rendering an order reports the order's own status. -/
theorem order_to_response_status (users : List UserRec)
    (products : List ProductRec) (order : OrderRec) (out : OrderOutM)
    (h : order_to_response users products order = .ok out) :
    out.status = order.status := by
  unfold order_to_response at h
  split at h
  · simp at h
  · split at h
    · simp at h
    · cases h
      rfl

/-- C8: for every existing order in any current status and every target
status `t` (including `t` equal to or preceding the current status, e.g.
shipped back to new), `update_order` overwrites the status with `t`
unconditionally: the stored order afterwards has status `t`, and —
whenever the order's references resolve so the response renders — the
call succeeds and reports status `t`.  No transition graph is
enforced. -/
theorem update_order_any_transition
    (users : List UserRec) (products : List ProductRec) (orders : List OrderRec)
    (oid : Nat) (t : OrderStatus) (o : OrderRec)
    (hget : orders_get orders oid = some o) (out : OrderOutM)
    (hresp : order_to_response users products { o with status := t } = .ok out) :
    orders_get (update_order users products orders oid t).1 oid =
      some { o with status := t } ∧
    (update_order users products orders oid t).2 = .ok out ∧
    out.status = t := by
  have hid : o.id = oid := by
    have := List.find?_some hget
    simpa using this
  have he : ensure_order_exists orders oid = .ok o := by
    simp [ensure_order_exists, hget]
  have h1 : (update_order users products orders oid t).1 =
      orders_put orders { o with status := t } := by
    simp [update_order, he]
  have h2 : (update_order users products orders oid t).2 =
      order_to_response users products { o with status := t } := by
    simp [update_order, he]
  refine ⟨?_, ?_, ?_⟩
  · rw [h1, ← hid]
    have := orders_get_put orders { o with status := t }
    simpa using this
  · rw [h2, hresp]
  · exact order_to_response_status _ _ _ _ hresp

/-- Witness for C8: a shipped order is moved straight back to `new`. -/
theorem update_order_any_transition_witness :
    orders_get
      [{ id := 3, user_id := 1, status := .shipped, created_at := 0,
         payment_method := .card, notes := none,
         items := [{ product_id := 1, qty := 2 }] }] 3 =
      some { id := 3, user_id := 1, status := .shipped, created_at := 0,
             payment_method := .card, notes := none,
             items := [{ product_id := 1, qty := 2 }] } ∧
    orders_get
      (update_order
        [{ id := 1, email := "a@x.com", name := "A", role := "member",
           created_at := 0, profile := none }]
        [{ id := 1, sku := "SKU-AAA111", name := "Book", price := 10,
           category := "book", tags := [] }]
        [{ id := 3, user_id := 1, status := .shipped, created_at := 0,
           payment_method := .card, notes := none,
           items := [{ product_id := 1, qty := 2 }] }] 3 .new).1 3 =
      some { id := 3, user_id := 1, status := .new, created_at := 0,
             payment_method := .card, notes := none,
             items := [{ product_id := 1, qty := 2 }] } := by
  have hresp : order_to_response
      [{ id := 1, email := "a@x.com", name := "A", role := "member",
         created_at := 0, profile := none }]
      [{ id := 1, sku := "SKU-AAA111", name := "Book", price := 10,
         category := "book", tags := [] }]
      { id := 3, user_id := 1, status := .new, created_at := 0,
        payment_method := .card, notes := none,
        items := [{ product_id := 1, qty := 2 }] } =
      .ok { id := 3, user_id := 1, status := .new, created_at := 0,
            payment_method := .card, notes := none, total := 20,
            items := [{ product_id := 1, qty := 2, line_total := 20 }] } := by
    simp [order_to_response, order_items_out, ensure_user_exists,
      ensure_product_exists, users_get, products_get, List.find?]
    norm_num [quantize_price]
  refine ⟨rfl, ?_⟩
  exact (update_order_any_transition
    [{ id := 1, email := "a@x.com", name := "A", role := "member",
       created_at := 0, profile := none }]
    [{ id := 1, sku := "SKU-AAA111", name := "Book", price := 10,
       category := "book", tags := [] }]
    [{ id := 3, user_id := 1, status := .shipped, created_at := 0,
       payment_method := .card, notes := none,
       items := [{ product_id := 1, qty := 2 }] }] 3 .new
    { id := 3, user_id := 1, status := .shipped, created_at := 0,
      payment_method := .card, notes := none,
      items := [{ product_id := 1, qty := 2 }] } rfl
    { id := 3, user_id := 1, status := .new, created_at := 0,
      payment_method := .card, notes := none, total := 20,
      items := [{ product_id := 1, qty := 2, line_total := 20 }] } hresp).1

/-! ## C5 and C6: the order-total reconciler -/

/-- What one reported line item says about the store: its product
resolves, and its line total is the product's current price times the
quantity, quantized round-half-up (with 2-place prices, quantizing the
price first — as the code does — changes nothing). -/
def LineFromStore (products : List ProductRec)
    (it : OrderItemRec) (o : OrderItemOutM) : Prop :=
  ∃ p, products_get products it.product_id = some p ∧
    o.product_id = p.id ∧ o.qty = it.qty ∧
    o.line_total = quantize_price (p.price * it.qty)

/-- Success of the item loop, with 2-place store prices: the reported
items correspond pointwise to the order's items with line totals
`quantize(price · qty)`, and the accumulated total is exactly the sum of
the line totals (a 2-place decimal). -/
theorem order_items_out_ok (products : List ProductRec)
    (hc : ∀ p ∈ products, IsCents p.price) :
    ∀ (items : List OrderItemRec) (outs : List OrderItemOutM) (total : ℚ),
      order_items_out products items = .ok (outs, total) →
      List.Forall₂ (LineFromStore products) items outs ∧
      total = (outs.map OrderItemOutM.line_total).sum ∧ IsCents total := by
  intro items
  induction items with
  | nil =>
    intro outs total h
    simp only [order_items_out] at h
    cases h
    exact ⟨List.Forall₂.nil, by simp, isCents_zero⟩
  | cons it rest ih =>
    intro outs total h
    simp only [order_items_out] at h
    cases hp : ensure_product_exists products it.product_id with
    | error e => rw [hp] at h; cases h
    | ok p =>
      rw [hp] at h
      cases hr : order_items_out products rest with
      | error e => rw [hr] at h; cases h
      | ok pr =>
        cases pr with
        | mk outs' total' =>
          rw [hr] at h
          cases h
          obtain ⟨hf, hsum, hcents⟩ := ih outs' total' hr
          have hpget : products_get products it.product_id = some p := by
            unfold ensure_product_exists at hp
            cases hg : products_get products it.product_id with
            | none => rw [hg] at hp; cases hp
            | some q => rw [hg] at hp; cases hp; rfl
          have hpmem : p ∈ products :=
            List.mem_of_find?_eq_some hpget
          have hpc : IsCents p.price := hc p hpmem
          have hqp : quantize_price p.price = p.price := quantize_price_eq_self hpc
          have hline : quantize_price (quantize_price p.price * it.qty) =
              quantize_price (p.price * it.qty) := by rw [hqp]
          refine ⟨List.Forall₂.cons ⟨p, hpget, rfl, rfl, hline⟩ hf, ?_, ?_⟩
          · simp only [List.map_cons, List.sum_cons]
            rw [hsum]
          · exact isCents_add (isCents_quantize _) hcents

/-- C5: when an order renders successfully against 2-place-decimal
product prices, every reported line total equals the product's unit
price times its quantity, quantized to 2 decimals round-half-up, and
the reported grand total equals the sum of the line totals quantized
the same way (the quantization of the sum is the identity here, so the
total is literally the sum). -/
theorem order_totals_correct (users : List UserRec)
    (products : List ProductRec) (order : OrderRec) (out : OrderOutM)
    (hc : ∀ p ∈ products, IsCents p.price)
    (h : order_to_response users products order = .ok out) :
    List.Forall₂ (LineFromStore products) order.items out.items ∧
    out.total = quantize_price ((out.items.map OrderItemOutM.line_total).sum) ∧
    out.total = (out.items.map OrderItemOutM.line_total).sum := by
  unfold order_to_response at h
  split at h
  · simp at h
  · cases hio : order_items_out products order.items with
    | error e => rw [hio] at h; simp at h
    | ok pr =>
      cases pr with
      | mk outs total =>
        rw [hio] at h
        cases h
        obtain ⟨hf, hsum, hcents⟩ := order_items_out_ok products hc order.items outs total hio
        refine ⟨hf, ?_, ?_⟩
        · simp only []
          rw [← hsum]
        · simp only []
          rw [← hsum, quantize_price_eq_self hcents]

/-- Witness for C5: products A (10.00) and B (5.01, the pre-quantized
form of 5.005) and an order of [(A, qty 2), (B, qty 1)]: the rendered
order carries line totals 20.00 and 5.01 and grand total 25.01. -/
theorem order_totals_correct_witness :
    (∀ p ∈ [({ id := 1, sku := "SKU-AAA111", name := "A", price := 10,
               category := "book", tags := [] } : ProductRec),
             { id := 2, sku := "SKU-BBB222", name := "B", price := 5.01,
               category := "book", tags := [] }], IsCents p.price) ∧
    order_to_response
      [{ id := 1, email := "a@x.com", name := "A", role := "member",
         created_at := 0, profile := none }]
      [{ id := 1, sku := "SKU-AAA111", name := "A", price := 10,
         category := "book", tags := [] },
       { id := 2, sku := "SKU-BBB222", name := "B", price := 5.01,
         category := "book", tags := [] }]
      { id := 4, user_id := 1, status := .new, created_at := 0,
        payment_method := .card, notes := none,
        items := [{ product_id := 1, qty := 2 }, { product_id := 2, qty := 1 }] } =
      .ok { id := 4, user_id := 1, status := .new, created_at := 0,
            payment_method := .card, notes := none, total := 25.01,
            items := [{ product_id := 1, qty := 2, line_total := 20 },
                      { product_id := 2, qty := 1, line_total := 5.01 }] } ∧
    (25.01 : ℚ) = quantize_price
      (([({ product_id := 1, qty := 2, line_total := 20 } : OrderItemOutM),
         { product_id := 2, qty := 1, line_total := 5.01 }].map
          OrderItemOutM.line_total).sum) := by
  have hc : ∀ p ∈ [({ id := 1, sku := "SKU-AAA111", name := "A", price := 10,
                      category := "book", tags := [] } : ProductRec),
                   { id := 2, sku := "SKU-BBB222", name := "B", price := 5.01,
                     category := "book", tags := [] }], IsCents p.price := by
    intro p hp
    rcases List.mem_cons.mp hp with rfl | hp'
    · exact ⟨1000, by norm_num⟩
    · rcases List.mem_cons.mp hp' with rfl | hp''
      · exact ⟨501, by norm_num⟩
      · cases hp''
  have hresp : order_to_response
      [{ id := 1, email := "a@x.com", name := "A", role := "member",
         created_at := 0, profile := none }]
      [{ id := 1, sku := "SKU-AAA111", name := "A", price := 10,
         category := "book", tags := [] },
       { id := 2, sku := "SKU-BBB222", name := "B", price := 5.01,
         category := "book", tags := [] }]
      { id := 4, user_id := 1, status := .new, created_at := 0,
        payment_method := .card, notes := none,
        items := [{ product_id := 1, qty := 2 }, { product_id := 2, qty := 1 }] } =
      .ok { id := 4, user_id := 1, status := .new, created_at := 0,
            payment_method := .card, notes := none, total := 25.01,
            items := [{ product_id := 1, qty := 2, line_total := 20 },
                      { product_id := 2, qty := 1, line_total := 5.01 }] } := by
    simp [order_to_response, order_items_out, ensure_user_exists,
      ensure_product_exists, users_get, products_get, List.find?]
    norm_num [quantize_price]
  refine ⟨hc, hresp, ?_⟩
  have h := order_totals_correct
    [{ id := 1, email := "a@x.com", name := "A", role := "member",
       created_at := 0, profile := none }]
    [{ id := 1, sku := "SKU-AAA111", name := "A", price := 10,
       category := "book", tags := [] },
     { id := 2, sku := "SKU-BBB222", name := "B", price := 5.01,
       category := "book", tags := [] }]
    { id := 4, user_id := 1, status := .new, created_at := 0,
      payment_method := .card, notes := none,
      items := [{ product_id := 1, qty := 2 }, { product_id := 2, qty := 1 }] }
    { id := 4, user_id := 1, status := .new, created_at := 0,
      payment_method := .card, notes := none, total := 25.01,
      items := [{ product_id := 1, qty := 2, line_total := 20 },
                { product_id := 2, qty := 1, line_total := 5.01 }] }
    hc hresp
  exact h.2.1

/-- Membership after a dict write: the element is the written record or
was already stored. -/
theorem products_put_mem {store : List ProductRec} {r q : ProductRec}
    (h : q ∈ products_put store r) : q = r ∨ q ∈ store := by
  induction store with
  | nil =>
    simp [products_put] at h
    exact Or.inl h
  | cons s ss ih =>
    by_cases hs : s.id = r.id
    · have hb : (s.id == r.id) = true := by simpa using hs
      simp only [products_put, hb, if_true] at h
      rcases List.mem_cons.mp h with rfl | h'
      · exact Or.inl rfl
      · exact Or.inr (List.mem_cons_of_mem s h')
    · have hb : (s.id == r.id) = false := by simpa using hs
      simp only [products_put, hb, if_false] at h
      rcases List.mem_cons.mp h with rfl | h'
      · exact Or.inr (List.mem_cons_self q ss)
      · rcases ih h' with h'' | h''
        · exact Or.inl h''
        · exact Or.inr (List.mem_cons_of_mem s h'')

/-- Extract, from a pointwise relation between two lists, the partner of
a member of the left list. -/
theorem forallTwo_mem_left {α β : Type _} {R : α → β → Prop}
    {l₁ : List α} {l₂ : List β} (h : List.Forall₂ R l₁ l₂)
    {a : α} (ha : a ∈ l₁) : ∃ b ∈ l₂, R a b := by
  induction h with
  | nil => cases ha
  | cons hR hrest ih =>
    rcases List.mem_cons.mp ha with rfl | ha'
    · exact ⟨_, List.mem_cons_self _ _, hR⟩
    · obtain ⟨b, hb, hab⟩ := ih ha'
      exact ⟨b, List.mem_cons_of_mem _ hb, hab⟩

/-- A successful `replace_product` returns the record built from the
request (with the path id) and writes exactly that record. -/
theorem replace_product_ok (pstore : List ProductRec) (pid : Nat)
    (prodIn : ProductInM) (newp : ProductRec)
    (h : (replace_product pstore pid prodIn).2 = .ok newp) :
    newp = { id := pid, sku := prodIn.sku, name := prodIn.name,
             price := prodIn.price, category := prodIn.category,
             tags := prodIn.tags } ∧
    (replace_product pstore pid prodIn).1 = products_put pstore newp := by
  cases he : ensure_product_exists pstore pid with
  | error e =>
    rw [replace_product, he] at h
    simp at h
  | ok p0 =>
    cases hs : ensure_sku_unique pstore prodIn.sku (some pid) with
    | error e =>
      rw [replace_product, he, hs] at h
      simp at h
    | ok u =>
      rw [replace_product, he, hs] at h
      simp at h
      refine ⟨h.symm, ?_⟩
      rw [replace_product, he, hs, h]

/-- C6: after a product's price is changed through `replace_product`,
re-reading any order that references it reports a line total computed
from the *new* price — `quantize(new price · qty)` — and a grand total
equal to the sum of the reported line totals.  The price the order was
created under appears nowhere: prices are not snapshotted. -/
theorem repricing_on_read
    (users : List UserRec) (pstore : List ProductRec) (pid : Nat)
    (prodIn : ProductInM)
    (hc : ∀ p ∈ pstore, IsCents p.price) (hcn : IsCents prodIn.price)
    (order : OrderRec) (it : OrderItemRec) (hit : it ∈ order.items)
    (hpid : it.product_id = pid)
    (newp : ProductRec) (hrepl : (replace_product pstore pid prodIn).2 = .ok newp)
    (out : OrderOutM)
    (hread : order_to_response users (replace_product pstore pid prodIn).1 order =
      .ok out) :
    (∃ o ∈ out.items, o.product_id = pid ∧ o.qty = it.qty ∧
      o.line_total = quantize_price (prodIn.price * it.qty)) ∧
    out.total = (out.items.map OrderItemOutM.line_total).sum := by
  obtain ⟨hnew, hstore⟩ := replace_product_ok pstore pid prodIn newp hrepl
  have hc' : ∀ p ∈ (replace_product pstore pid prodIn).1, IsCents p.price := by
    intro p hp
    rw [hstore] at hp
    rcases products_put_mem hp with rfl | hp'
    · rw [hnew]
      exact hcn
    · exact hc p hp'
  obtain ⟨hf, _, hsum⟩ :=
    order_totals_correct users (replace_product pstore pid prodIn).1 order out hc' hread
  refine ⟨?_, hsum⟩
  obtain ⟨o, ho, p, hpget, hoid, hoqty, holt⟩ := forallTwo_mem_left hf hit
  have hcur : products_get (replace_product pstore pid prodIn).1 it.product_id =
      some newp := by
    rw [hstore, hpid]
    have := products_get_put pstore newp
    rw [hnew] at this ⊢
    simpa using this
  rw [hcur] at hpget
  cases hpget
  refine ⟨o, ho, ?_, hoqty, ?_⟩
  · rw [hoid, hnew]
  · rw [holt, hnew]

/-- Witness for C6: a product priced 10.00 referenced by an order with
qty 2 (line total 20.00 at creation) is repriced to 7.00; re-reading
reports line total 14.00 and grand total 14.00. -/
theorem repricing_on_read_witness :
    (replace_product
      [{ id := 1, sku := "SKU-AAA111", name := "Book", price := 10,
         category := "book", tags := [] }] 1
      { sku := "SKU-AAA111", name := "Book", price := 7, category := "book",
        tags := [] }).2 =
      .ok { id := 1, sku := "SKU-AAA111", name := "Book", price := 7,
            category := "book", tags := [] } ∧
    order_to_response
      [{ id := 1, email := "a@x.com", name := "A", role := "member",
         created_at := 0, profile := none }]
      (replace_product
        [{ id := 1, sku := "SKU-AAA111", name := "Book", price := 10,
           category := "book", tags := [] }] 1
        { sku := "SKU-AAA111", name := "Book", price := 7, category := "book",
          tags := [] }).1
      { id := 4, user_id := 1, status := .new, created_at := 0,
        payment_method := .card, notes := none,
        items := [{ product_id := 1, qty := 2 }] } =
      .ok { id := 4, user_id := 1, status := .new, created_at := 0,
            payment_method := .card, notes := none, total := 14,
            items := [{ product_id := 1, qty := 2, line_total := 14 }] } ∧
    (∃ o ∈ [({ product_id := 1, qty := 2, line_total := 14 } : OrderItemOutM)],
      o.product_id = 1 ∧ o.qty = 2 ∧
      o.line_total = quantize_price ((7 : ℚ) * (2 : ℕ))) := by
  have hrepl : (replace_product
      [{ id := 1, sku := "SKU-AAA111", name := "Book", price := 10,
         category := "book", tags := [] }] 1
      { sku := "SKU-AAA111", name := "Book", price := 7, category := "book",
        tags := [] }).2 =
      .ok { id := 1, sku := "SKU-AAA111", name := "Book", price := 7,
            category := "book", tags := [] } := by
    simp [replace_product, ensure_product_exists, ensure_sku_unique,
      products_get, List.find?, py_upper_str]
  have hread : order_to_response
      [{ id := 1, email := "a@x.com", name := "A", role := "member",
         created_at := 0, profile := none }]
      (replace_product
        [{ id := 1, sku := "SKU-AAA111", name := "Book", price := 10,
           category := "book", tags := [] }] 1
        { sku := "SKU-AAA111", name := "Book", price := 7, category := "book",
          tags := [] }).1
      { id := 4, user_id := 1, status := .new, created_at := 0,
        payment_method := .card, notes := none,
        items := [{ product_id := 1, qty := 2 }] } =
      .ok { id := 4, user_id := 1, status := .new, created_at := 0,
            payment_method := .card, notes := none, total := 14,
            items := [{ product_id := 1, qty := 2, line_total := 14 }] } := by
    simp [replace_product, ensure_product_exists, ensure_sku_unique,
      products_get, products_put, List.find?, py_upper_str,
      order_to_response, order_items_out, ensure_user_exists, users_get]
    norm_num [quantize_price]
  have h := repricing_on_read
    [{ id := 1, email := "a@x.com", name := "A", role := "member",
       created_at := 0, profile := none }]
    [{ id := 1, sku := "SKU-AAA111", name := "Book", price := 10,
       category := "book", tags := [] }] 1
    { sku := "SKU-AAA111", name := "Book", price := 7, category := "book",
      tags := [] }
    (by
      intro p hp
      rcases List.mem_cons.mp hp with rfl | hp'
      · exact ⟨1000, by norm_num⟩
      · cases hp')
    ⟨700, by norm_num⟩
    { id := 4, user_id := 1, status := .new, created_at := 0,
      payment_method := .card, notes := none,
      items := [{ product_id := 1, qty := 2 }] }
    { product_id := 1, qty := 2 } (List.mem_singleton.mpr rfl) rfl
    { id := 1, sku := "SKU-AAA111", name := "Book", price := 7,
      category := "book", tags := [] } hrepl
    { id := 4, user_id := 1, status := .new, created_at := 0,
      payment_method := .card, notes := none, total := 14,
      items := [{ product_id := 1, qty := 2, line_total := 14 }] } hread
  exact ⟨hrepl, hread, h.1⟩

/-! ## C2: conditional reads -/

/-- C2 (amended): conditional-read matching differs between the two
variants.  Router variant (`app/routers/users.py`): the header is split
on commas and each candidate stripped; if the current tag equals one of
the candidates the read returns 304 with no body and the tag echoed,
otherwise a 200 with the full body.  `main.py` variant: the *entire*
header string is compared with the tag; only a header exactly equal to
the tag yields 304, any other header — including a comma-separated list
containing the tag — yields the full body.  Candidate matching is exact
string equality in both variants. -/
theorem conditional_read_matching
    (digest : String → String)
    (store : List SqlUserRec) (audit : Nat → List Json) (uid : Nat)
    (u : SqlUserRec) (hfind : store.find? (fun v => v.id == uid) = some u)
    (h : String) (hne : h.data ≠ [])
    (ustore : List UserRec) (uid2 : Nat) (mu : UserRec)
    (hfind2 : users_get ustore uid2 = some mu) (hdr2 : Option String) :
    ((compute_etag digest (sql_user_detail_json u (audit u.id))).data ∈
        (py_split ',' h.data).map py_strip →
      router_get_user digest store audit uid (some h) =
        .ok { statusCode := 304, body := none,
              etag := compute_etag digest (sql_user_detail_json u (audit u.id)) }) ∧
    ((compute_etag digest (sql_user_detail_json u (audit u.id))).data ∉
        (py_split ',' h.data).map py_strip →
      router_get_user digest store audit uid (some h) =
        .ok { statusCode := 200,
              body := some (sql_user_detail_json u (audit u.id)),
              etag := compute_etag digest (sql_user_detail_json u (audit u.id)) }) ∧
    (hdr2 = some (generate_etag digest (user_out_json mu)) →
      get_user digest ustore uid2 hdr2 =
        .ok { statusCode := 304, body := none,
              etag := generate_etag digest (user_out_json mu) }) ∧
    (hdr2 ≠ some (generate_etag digest (user_out_json mu)) →
      get_user digest ustore uid2 hdr2 =
        .ok { statusCode := 200, body := some (user_out_json mu),
              etag := generate_etag digest (user_out_json mu) }) := by
  have hemp : h.data.isEmpty = false := by
    cases hd : h.data with
    | nil => exact absurd hd hne
    | cons c cs => rfl
  refine ⟨?_, ?_, ?_, ?_⟩
  · intro hmem
    simp [router_get_user, hfind, router_not_modified, hemp]
    exact List.mem_map.mp hmem
  · intro hmem
    simp [router_get_user, hfind, router_not_modified, hemp]
    intro x hx hpx
    exact hmem (List.mem_map.mpr ⟨x, hx, hpx⟩)
  · intro heq
    have : (hdr2 == some (generate_etag digest (user_out_json mu))) = true := by
      simpa using heq
    simp [get_user, ensure_user_exists, hfind2, this]
  · intro hne2
    have : (hdr2 == some (generate_etag digest (user_out_json mu))) = false := by
      simpa using hne2
    simp [get_user, ensure_user_exists, hfind2, this]

/-- Witness for C2 (amended): the router variant returns 304 for a
header carrying the tag as its second comma-separated candidate, and the
`main.py` variant returns 304 for a header exactly equal to the tag. -/
theorem conditional_read_matching_witness :
    ((compute_etag (fun _ => "d")
        (sql_user_detail_json
          { id := 1, email := "a@x.com", full_name := "A", is_active := true,
            joined_at := 0, updated_at := 0 } [])).data ∈
      (py_split ',' ("W/\"x\", W/\"d\"").data).map py_strip) ∧
    router_get_user (fun _ => "d")
      [{ id := 1, email := "a@x.com", full_name := "A", is_active := true,
         joined_at := 0, updated_at := 0 }] (fun _ => []) 1
      (some "W/\"x\", W/\"d\"") =
      .ok { statusCode := 304, body := none,
            etag := compute_etag (fun _ => "d")
              (sql_user_detail_json
                { id := 1, email := "a@x.com", full_name := "A", is_active := true,
                  joined_at := 0, updated_at := 0 } []) } ∧
    get_user (fun _ => "d")
      [{ id := 1, email := "a@x.com", name := "A", role := "member",
         created_at := 0, profile := none }] 1
      (some (generate_etag (fun _ => "d")
        (user_out_json { id := 1, email := "a@x.com", name := "A",
                         role := "member", created_at := 0, profile := none }))) =
      .ok { statusCode := 304, body := none,
            etag := generate_etag (fun _ => "d")
              (user_out_json { id := 1, email := "a@x.com", name := "A",
                               role := "member", created_at := 0, profile := none }) } := by
  have h := conditional_read_matching (fun _ => "d")
    [{ id := 1, email := "a@x.com", full_name := "A", is_active := true,
       joined_at := 0, updated_at := 0 }] (fun _ => []) 1
    { id := 1, email := "a@x.com", full_name := "A", is_active := true,
      joined_at := 0, updated_at := 0 } rfl
    "W/\"x\", W/\"d\"" (by decide)
    [{ id := 1, email := "a@x.com", name := "A", role := "member",
       created_at := 0, profile := none }] 1
    { id := 1, email := "a@x.com", name := "A", role := "member",
      created_at := 0, profile := none } rfl
    (some (generate_etag (fun _ => "d")
      (user_out_json { id := 1, email := "a@x.com", name := "A",
                       role := "member", created_at := 0, profile := none })))
  exact ⟨by decide, h.1 (by decide), h.2.2.1 rfl⟩

/-- Counterexample for C2 as stated: in `main.py`, a comparison header
that contains the current tag `W/"d"` among two comma-separated
candidates does *not* short-circuit — the read returns a 200 with the
full body instead of a 304 with no body. -/
theorem conditional_read_counterexample :
    ((generate_etag (fun _ => "d")
        (user_out_json { id := 1, email := "a@x.com", name := "A",
                         role := "member", created_at := 0, profile := none })).data ∈
      (py_split ',' ("W/\"d\", W/\"x\"").data).map py_strip) ∧
    get_user (fun _ => "d")
      [{ id := 1, email := "a@x.com", name := "A", role := "member",
         created_at := 0, profile := none }] 1 (some "W/\"d\", W/\"x\"") =
      .ok { statusCode := 200,
            body := some (user_out_json { id := 1, email := "a@x.com", name := "A",
                                          role := "member", created_at := 0,
                                          profile := none }),
            etag := generate_etag (fun _ => "d")
              (user_out_json { id := 1, email := "a@x.com", name := "A",
                               role := "member", created_at := 0, profile := none }) } := by
  constructor
  · decide
  · have hne : (some "W/\"d\", W/\"x\"" == some (generate_etag (fun _ => "d")
        (user_out_json { id := 1, email := "a@x.com", name := "A",
                         role := "member", created_at := 0, profile := none }))) = false := by
      decide
    simp [get_user, ensure_user_exists, users_get, List.find?, hne]

/-! ## C10: the echo endpoint -/

/-- Repeating `x + " "` `r` times is the space-join of `r` copies of `x` with one
trailing space, for `r ≥ 1`. -/
theorem py_repeat_eq_joinSep (x : List Char) :
    ∀ r : Nat, 1 ≤ r →
      py_repeat (x ++ [' ']) r = joinSep [' '] (List.replicate r x) ++ [' '] := by
  intro r
  induction r with
  | zero => omega
  | succ n ih =>
    intro _
    cases n with
    | zero => simp [py_repeat, joinSep, List.replicate]
    | succ m =>
      have hrec := ih (by omega)
      show (x ++ [' ']) ++ py_repeat (x ++ [' ']) (m + 1) = _
      rw [hrec]
      simp [List.replicate, joinSep, List.append_assoc]

/-- Stripping absorbs a trailing space. -/
theorem py_strip_append_space (y : List Char) :
    py_strip (y ++ [' ']) = py_strip y := by
  unfold py_strip
  cases hdw : y.dropWhile Char.isWhitespace with
  | nil =>
    rw [List.dropWhile_append, hdw]
    simp [List.dropWhile]
  | cons c cs =>
    rw [List.dropWhile_append, hdw]
    simp only [List.isEmpty_cons, List.reverse_append]
    simp [List.dropWhile]

/-- C10 (amended): the echoed string is the HTML-escaped message
repeated `r` times joined by single spaces **and then stripped of
leading/trailing whitespace** (so surrounding whitespace of the message
itself is removed), uppercased when the flag is set; the reported
`original_message_length` is the length of the unescaped original
message. -/
theorem echo_amended (m : List Char) (r : Nat) (hr : 1 ≤ r) (u : Bool) :
    echo m r u =
      { echoed :=
          if u then py_upper (py_strip (joinSep [' ']
            (List.replicate r (html_escape m))))
          else py_strip (joinSep [' '] (List.replicate r (html_escape m))),
        original_message_length := m.length } := by
  unfold echo
  simp only []
  rw [py_repeat_eq_joinSep _ r hr, py_strip_append_space]

/-- Witness for C10 (amended): `"a&"` echoed twice, uppercased. -/
theorem echo_amended_witness :
    1 ≤ 2 ∧
    echo ['a', '&'] 2 true =
      { echoed := py_upper (py_strip (joinSep [' ']
          (List.replicate 2 (html_escape ['a', '&'])))),
        original_message_length := 2 } :=
  ⟨by decide, echo_amended ['a', '&'] 2 (by decide) true⟩

/-- Counterexample for C10 as stated: for the message `" a"` (leading
space, a legal 2-character message) with repeat 1 and no uppercasing,
the code echoes `"a"` — `str.strip()` removes the message's own leading
whitespace — while the claimed formula (escape, repeat, join by single
spaces, uppercase) yields `" a"`. -/
theorem echo_counterexample :
    echo [' ', 'a'] 1 false =
      { echoed := ['a'], original_message_length := 2 } ∧
    claim_echoed [' ', 'a'] 1 false = [' ', 'a'] ∧
    ([' ', 'a'] : List Char) ≠ ['a'] :=
  ⟨by decide, by decide, by decide⟩

/-! ## C7 revisited: the router variant resolves SKUs against `INVENTORY`

In `app/routers/orders.py` an order's product references are SKU
strings, counted with `Counter` and resolved against the module constant
`INVENTORY`; an unknown SKU raises HTTP **400** ("Unknown SKU: …"), not
404.  The rows written for the individual items and the audit log are
omitted from the store model: the claim is about the error and about no
order row being written, and nothing is written before the whole loop
has resolved. -/

/-- The `OrderStatus` enumeration of the router variant
(`app/models.py`). -/
inductive SqlOrderStatus where
  | pending
  | processing
  | shipped
  | delivered
  | cancelled
deriving DecidableEq

/-- An `Order` row of the router variant. -/
structure SqlOrderRec where
  id : Nat
  user_id : Nat
  status : SqlOrderStatus
  total : ℚ
  placed_at : Nat
  updated_at : Nat
deriving DecidableEq

/-- The router's `OrderCreate` payload (`app/schemas.py`). -/
structure RouterOrderCreateM where
  user_id : Nat
  item_skus : List String
  status : SqlOrderStatus
  total : ℚ

/-- The fixed `INVENTORY` dict of `app/routers/orders.py`:
SKU ↦ (name, unit price). -/
def INVENTORY : List (String × String × ℚ) :=
  [("LPT-1000", "Analytical Engine Manual", 125.50),
   ("COB-1959", "COBOL Specification", 89.90),
   ("ALG-0001", "Algorithm Notes", 21.00)]

/-- One step of `collections.Counter`: count an occurrence of `s`,
keeping keys in first-insertion order as `Counter` does. -/
def counter_add : List (String × Nat) → String → List (String × Nat)
  | [], s => [(s, 1)]
  | (k, n) :: rest, s =>
    if k == s then (k, n + 1) :: rest else (k, n) :: counter_add rest s

/-- Embedding of `Counter(item_skus)` as its `items()` list. -/
def py_counter (l : List String) : List (String × Nat) :=
  l.foldl counter_add []

/-- `Decimal.quantize(Decimal("0.01"))` with the default
`ROUND_HALF_EVEN`: fix to 2 fraction digits, ties to the even
hundredth. -/
def quantize_half_even (v : ℚ) : ℚ :=
  let n := ⌊v * 100⌋
  let f := v * 100 - (n : ℚ)
  let r := if f < 1/2 then n else if 1/2 < f then n + 1
           else if n % 2 = 0 then n else n + 1
  (r : ℚ) / 100

/-- The SKU-resolution loop of the router's `create_order`: look every
counted SKU up in `INVENTORY`; an unknown SKU fails with 400
(BadRequest), otherwise accumulate `(sku, name, quantity, unit_price)`
and the running total. -/
def router_resolve_items :
    List (String × Nat) → Except Err (List (String × String × Nat × ℚ) × ℚ)
  | [] => .ok ([], 0)
  | (sku, quantity) :: rest =>
    match INVENTORY.find? (fun e => e.1 == sku) with
    | none => .error .badRequest
    | some entry =>
      match router_resolve_items rest with
      | .error e => .error e
      | .ok (items, total) =>
        .ok ((sku, entry.2.1, quantity, entry.2.2) :: items,
             entry.2.2 * quantity + total)

/-- Embedding of `create_order` from `app/routers/orders.py`: resolve
the user (404 if absent), resolve every counted SKU (400 on an unknown
one), quantize the computed total and reject with 400 if it differs
from the client-supplied total, and only then write the order row. -/
def router_create_order (users : List SqlUserRec) (orders : List SqlOrderRec)
    (now newId : Nat) (order_in : RouterOrderCreateM) :
    List SqlOrderRec × Except Err SqlOrderRec :=
  match users.find? (fun u => u.id == order_in.user_id) with
  | none => (orders, .error .notFound)
  | some _ =>
    match router_resolve_items (py_counter order_in.item_skus) with
    | .error e => (orders, .error e)
    | .ok (_items, total) =>
      let total_q := quantize_half_even total
      if total_q ≠ order_in.total then (orders, .error .badRequest)
      else
        let order : SqlOrderRec :=
          { id := newId, user_id := order_in.user_id, status := order_in.status,
            total := total_q, placed_at := now, updated_at := now }
        (orders ++ [order], .ok order)

/-- Counting an occurrence of `s` makes `s` a key of the counter. -/
theorem counter_add_mem_self (acc : List (String × Nat)) (s : String) :
    ∃ n, (s, n) ∈ counter_add acc s := by
  induction acc with
  | nil => exact ⟨1, List.mem_singleton.mpr rfl⟩
  | cons hd rest ih =>
    obtain ⟨k, c⟩ := hd
    by_cases hk : k = s
    · subst hk
      refine ⟨c + 1, ?_⟩
      simp [counter_add]
    · have hb : (k == s) = false := by simpa using hk
      obtain ⟨n, hn⟩ := ih
      refine ⟨n, ?_⟩
      simp only [counter_add, hb, if_false]
      exact List.mem_cons_of_mem _ hn

/-- Counting an occurrence of `t` keeps every existing key. -/
theorem counter_add_mem_keep {acc : List (String × Nat)} {s : String} {m : Nat}
    (t : String) (h : (s, m) ∈ acc) : ∃ n, (s, n) ∈ counter_add acc t := by
  induction acc with
  | nil => cases h
  | cons hd rest ih =>
    obtain ⟨k, c⟩ := hd
    by_cases hk : k = t
    · subst hk
      have hb : (k == k) = true := by simp
      simp only [counter_add, hb, if_true]
      rcases List.mem_cons.mp h with heq | h'
      · cases heq
        exact ⟨_, List.mem_cons_self _ _⟩
      · exact ⟨m, List.mem_cons_of_mem _ h'⟩
    · have hb : (k == t) = false := by simpa using hk
      simp only [counter_add, hb, if_false]
      rcases List.mem_cons.mp h with heq | h'
      · cases heq
        exact ⟨m, List.mem_cons_self _ _⟩
      · obtain ⟨n, hn⟩ := ih h'
        exact ⟨n, List.mem_cons_of_mem _ hn⟩

/-- Every element of the counted list is a key of the resulting
counter. -/
theorem py_counter_mem (l : List String) (s : String) (hs : s ∈ l) :
    ∃ n, (s, n) ∈ py_counter l := by
  suffices h : ∀ (l' : List String) (acc : List (String × Nat)),
      ((∃ m, (s, m) ∈ acc) ∨ s ∈ l') →
      ∃ n, (s, n) ∈ List.foldl counter_add acc l' by
    exact h l [] (Or.inr hs)
  intro l'
  induction l' with
  | nil =>
    intro acc h
    rcases h with ⟨m, hm⟩ | h
    · exact ⟨m, hm⟩
    · cases h
  | cons x xs ih =>
    intro acc h
    simp only [List.foldl_cons]
    apply ih
    rcases h with ⟨m, hm⟩ | hx
    · exact Or.inl (counter_add_mem_keep x hm)
    · rcases List.mem_cons.mp hx with rfl | hx'
      · exact Or.inl (counter_add_mem_self acc s)
      · exact Or.inr hx'

/-- If any counted SKU is absent from `INVENTORY`, the resolution loop
fails with 400. -/
theorem router_resolve_items_error (counts : List (String × Nat))
    (sku : String) (n : Nat) (hmem : (sku, n) ∈ counts)
    (hmiss : INVENTORY.find? (fun e => e.1 == sku) = none) :
    router_resolve_items counts = .error .badRequest := by
  induction counts with
  | nil => cases hmem
  | cons hd rest ih =>
    obtain ⟨k, c⟩ := hd
    rcases List.mem_cons.mp hmem with heq | hmem'
    · cases heq
      simp [router_resolve_items, hmiss]
    · cases hfind : INVENTORY.find? (fun e => e.1 == k) with
      | none => simp [router_resolve_items, hfind]
      | some entry => simp [router_resolve_items, hfind, ih hmem']

/-- C7 (amended): an order-creation request with an unresolvable product
reference fails with a client error and writes no order, but the error
class differs between the variants: in `main.py` (integer product ids
resolved against the products store) the failure is NotFound, while in
the router variant (SKU strings resolved against the fixed `INVENTORY`)
the failure is BadRequest — HTTP 400, "Unknown SKU" — not NotFound,
provided the owning user resolves (a missing user fails 404 first).  In
both variants the orders store is returned exactly as it was. -/
theorem create_order_unresolved_reference
    (users : List UserRec) (products : List ProductRec) (orders : List OrderRec)
    (now newId : Nat) (req : OrderCreateM) (it : OrderItemRec)
    (hit : it ∈ req.items)
    (hmiss : products_get products it.product_id = none)
    (rusers : List SqlUserRec) (rorders : List SqlOrderRec) (rnow rnewId : Nat)
    (rreq : RouterOrderCreateM) (ru : SqlUserRec)
    (hruser : rusers.find? (fun u => u.id == rreq.user_id) = some ru)
    (sku : String) (hsku : sku ∈ rreq.item_skus)
    (hrmiss : INVENTORY.find? (fun e => e.1 == sku) = none) :
    create_order users products orders now newId req = (orders, .error .notFound) ∧
    router_create_order rusers rorders rnow rnewId rreq =
      (rorders, .error .badRequest) ∧
    Err.badRequest ≠ Err.notFound := by
  refine ⟨create_order_unresolved_product users products orders now newId req it
    hit hmiss, ?_, by decide⟩
  obtain ⟨n, hn⟩ := py_counter_mem rreq.item_skus sku hsku
  have hres := router_resolve_items_error (py_counter rreq.item_skus) sku n hn hrmiss
  simp [router_create_order, hruser, hres]

/-- Witness for C7 (amended): in `main.py` an order referencing product
id 5 against an empty products store fails NotFound; in the router
variant an order for the unknown SKU `NOPE-0000` by an existing user
fails BadRequest.  Both leave their (empty) orders stores empty. -/
theorem create_order_unresolved_reference_witness :
    ({ product_id := 5, qty := 1 } : OrderItemRec) ∈
      [({ product_id := 5, qty := 1 } : OrderItemRec)] ∧
    products_get [] 5 = none ∧
    ("NOPE-0000" ∈ ["NOPE-0000"]) ∧
    INVENTORY.find? (fun e => e.1 == "NOPE-0000") = none ∧
    create_order
      [{ id := 1, email := "a@x.com", name := "A", role := "member",
         created_at := 0, profile := none }] [] [] 0 9
      { user_id := 1, items := [{ product_id := 5, qty := 1 }],
        payment_method := .card, notes := none } = ([], .error .notFound) ∧
    router_create_order
      [{ id := 1, email := "a@x.com", full_name := "A", is_active := true,
         joined_at := 0, updated_at := 0 }] [] 0 9
      { user_id := 1, item_skus := ["NOPE-0000"], status := .pending,
        total := 1 } = ([], .error .badRequest) := by
  have h := create_order_unresolved_reference
    [{ id := 1, email := "a@x.com", name := "A", role := "member",
       created_at := 0, profile := none }] [] [] 0 9
    { user_id := 1, items := [{ product_id := 5, qty := 1 }],
      payment_method := .card, notes := none }
    { product_id := 5, qty := 1 } (List.mem_singleton.mpr rfl) rfl
    [{ id := 1, email := "a@x.com", full_name := "A", is_active := true,
       joined_at := 0, updated_at := 0 }] [] 0 9
    { user_id := 1, item_skus := ["NOPE-0000"], status := .pending, total := 1 }
    { id := 1, email := "a@x.com", full_name := "A", is_active := true,
      joined_at := 0, updated_at := 0 } rfl
    "NOPE-0000" (List.mem_singleton.mpr rfl) rfl
  exact ⟨List.mem_singleton.mpr rfl, rfl, List.mem_singleton.mpr rfl, rfl,
    h.1, h.2.1⟩

/-- Counterexample for C7 as stated: in the router variant
(`app/routers/orders.py`), an order-creation request by an existing
user whose single SKU `NOPE-0000` does not resolve in `INVENTORY` fails
with BadRequest (HTTP 400, "Unknown SKU"), which is not NotFound — the
claim's error class is wrong for this variant.  No order is written. -/
theorem create_order_unknown_sku_counterexample :
    ("NOPE-0000" ∈ ["NOPE-0000"]) ∧
    INVENTORY.find? (fun e => e.1 == "NOPE-0000") = none ∧
    router_create_order
      [{ id := 1, email := "a@x.com", full_name := "A", is_active := true,
         joined_at := 0, updated_at := 0 }] [] 0 9
      { user_id := 1, item_skus := ["NOPE-0000"], status := .pending,
        total := 1 } = ([], .error .badRequest) ∧
    Err.badRequest ≠ Err.notFound := by
  refine ⟨List.mem_singleton.mpr rfl, rfl, rfl, by decide⟩
